import Mathlib

/-! Shallow embedding of the chat backend in src/server.js and
src/unnamed/part_000: the conversation and message documents, the MongoDB
collection operations the handlers invoke, the conversation id derivation,
the HTTP handlers and the socket event handlers. Everything is modelled as
pure state passing functions over an association list store. A storage
fault (driver call throwing) is modelled by an explicit Boolean flag per
driver call performed inside a try block; the catch branch of the handler
is the flag-false branch of the model. -/

namespace ChatBackend

/-- A message document as built by the handlers. A string field that a
handler omits on the JavaScript object is modelled as `none`; the `system`
flag, absent on non system messages, is modelled as `false`. -/
structure Message where
  messageId : String
  senderId : Option String
  content : Option String
  timestamp : Option String
  read : Bool
  status : String
  system : Bool
  bookingId : Option String
  senderAvatarUrl : Option String
deriving DecidableEq

/-- A conversation document. The creation code of both endpoints stores
only `_id`, `participants`, `messages`, optionally `bookingId`, and the two
timestamps; `status` and `openedBy` appear only when the updateStatus
handler sets them, so both are modelled as `Option`. -/
structure Conversation where
  _id : String
  participants : List String
  messages : List Message
  bookingId : Option String
  status : Option String
  openedBy : Option String
  createdAt : String
  updatedAt : String
deriving DecidableEq

/-- The conversations collection, modelled as an association list from the
document key to the document. -/
abbrev Store := List (String × Conversation)

/-- Models collection.findOne on the primary key: the first document whose
key matches, if any. -/
def findOne : Store → String → Option Conversation
  | [], _ => none
  | e :: rest, k => if e.1 == k then some e.2 else findOne rest k

/-- Models collection.insertOne of a document whose key is known to be
absent: the document is added to the collection. -/
def insertDoc (s : Store) (c : Conversation) : Store :=
  (c._id, c) :: s

/-- Number of documents stored under a given key. -/
def countId : Store → String → Nat
  | [], _ => 0
  | e :: rest, k => (if e.1 == k then 1 else 0) + countId rest k

/-- Models collection.updateOne with a filter on the primary key plus an
extra document condition q: the first matching document is replaced by f
applied to it, in one atomic step; when nothing matches, the collection is
unchanged. -/
def updateOneDoc : Store → (Conversation → Bool) → String → (Conversation → Conversation) → Store
  | [], _, _, _ => []
  | e :: rest, q, cid, f =>
      if e.1 == cid && q e.2 then (e.1, f e.2) :: rest
      else e :: updateOneDoc rest q cid f

/-- Truthiness of an optional string request field: absent and empty are
falsy, matching the JavaScript field checks in the handlers. -/
def truthy : Option String → Bool
  | none => false
  | some v => v != ""

/-- Models the JavaScript expression x || d for an optional string x. -/
def orDefault (x : Option String) (d : String) : String :=
  match x with
  | some v => if v != "" then v else d
  | none => d

/-- The booking id normalization used by both creation endpoints: every
forward slash in the booking id is replaced by an underscore. -/
def normalizeBookingId (b : String) : String :=
  String.mk (b.data.map (fun ch => if ch = '/' then '_' else ch))

/-- The support side identity chosen by the POST /api/conversations handler
in part_000: the explicit supportAgentId when initiatedBy is support and
the field is truthy, else the configured SUPPORT_USER_ID, else the literal
defaultSupport. -/
def resolveSupportId (initiatedBy : String) (supportAgentId envSupportUserId : Option String) : String :=
  if initiatedBy == "support" && truthy supportAgentId then supportAgentId.getD ""
  else orDefault envSupportUserId "defaultSupport"

/-- The conversation id composition of the POST /api/conversations handler
in part_000. -/
def resolveConversationId (bookingId : Option String) (userId initiatedBy supportId : String) : String :=
  if initiatedBy == "guest" && truthy bookingId then
    normalizeBookingId (bookingId.getD "") ++ "-" ++ userId ++ "-" ++ supportId
  else
    "conversation-" ++ userId ++ "-" ++ supportId

/-- The support id computed by the part_000 creation handler after the
guest default for the initiatedBy field has been applied. -/
def supportIdOf (initiatedBy supportAgentId envSupportUserId : Option String) : String :=
  resolveSupportId (initiatedBy.getD "guest") supportAgentId envSupportUserId

/-- The conversation id the POST /api/conversations handler of part_000
derives from the request body and the environment. -/
def derivedId (bookingId userId initiatedBy supportAgentId envSupportUserId : Option String) : String :=
  resolveConversationId bookingId (userId.getD "") (initiatedBy.getD "guest")
    (supportIdOf initiatedBy supportAgentId envSupportUserId)

/-- The conversation id the POST /api/createSupportConversation handler of
server.js derives: normalized booking id, user id, the configured support
user id, and a trailing support marker. -/
def derivedSupportId (bookingId userId envSupportUserId : Option String) : String :=
  normalizeBookingId (bookingId.getD "") ++ "-" ++ userId.getD "" ++ "-" ++
    orDefault envSupportUserId "67d2eb99001ca2b957ce" ++ "-support"

/-- Response of the two conversation creation endpoints. -/
inductive CreateResponse where
  | badRequest (error : String)
  | okId (conversationId : String)
deriving DecidableEq

/-- Result of a conversation creation endpoint: the store after the call,
the HTTP response, and the number of collection operations performed. -/
structure CreateResult where
  store : Store
  response : CreateResponse
  dbOps : Nat
deriving DecidableEq

/-- The POST /api/conversations handler of part_000, lines 34 to 78: reject
when userId is falsy, derive the conversation id, look it up, and insert a
fresh document with an empty message log when the lookup found nothing.
The fresh document carries no bookingId, no status and no openedBy field. -/
def createConversation_part000 (s : Store)
    (bookingId userId initiatedBy supportAgentId envSupportUserId : Option String)
    (now : String) : CreateResult :=
  if !truthy userId then
    { store := s, response := .badRequest "userId is required", dbOps := 0 }
  else
    let supportId := supportIdOf initiatedBy supportAgentId envSupportUserId
    let conversationId := derivedId bookingId userId initiatedBy supportAgentId envSupportUserId
    match findOne s conversationId with
    | some _ => { store := s, response := .okId conversationId, dbOps := 1 }
    | none =>
        { store := insertDoc s
            { _id := conversationId, participants := [userId.getD "", supportId],
              messages := [], bookingId := none, status := none, openedBy := none,
              createdAt := now, updatedAt := now },
          response := .okId conversationId, dbOps := 2 }

/-- The POST /api/createSupportConversation handler of server.js, lines 70
to 114: reject when bookingId or userId is falsy, derive the id, look it
up, and insert a fresh document with an empty message log when absent. The
fresh document records the bookingId but no status and no openedBy. -/
def createSupportConversation (s : Store)
    (bookingId userId envSupportUserId : Option String) (now : String) : CreateResult :=
  if !truthy bookingId || !truthy userId then
    { store := s, response := .badRequest "bookingId and userId are required", dbOps := 0 }
  else
    let supportUserId := orDefault envSupportUserId "67d2eb99001ca2b957ce"
    let conversationId := derivedSupportId bookingId userId envSupportUserId
    match findOne s conversationId with
    | some _ => { store := s, response := .okId conversationId, dbOps := 1 }
    | none =>
        { store := insertDoc s
            { _id := conversationId, participants := [userId.getD "", supportUserId],
              messages := [], bookingId := bookingId, status := none, openedBy := none,
              createdAt := now, updatedAt := now },
          response := .okId conversationId, dbOps := 2 }

/-- The message object built by the sendMessage socket handler of part_000,
lines 116 to 123: fresh ObjectId hex string, the sender, content and
timestamp from the event data, read false, status sent. -/
def sentMessage_part000 (senderId : String) (content : Option String)
    (timestamp freshId : String) : Message :=
  { messageId := freshId, senderId := some senderId, content := content,
    timestamp := some timestamp, read := false, status := "sent", system := false,
    bookingId := none, senderAvatarUrl := none }

/-- The message object built by the sendMessage socket handler of
server.js, lines 208 to 217: as in part_000 plus the bookingId and the
senderAvatarUrl taken from the event data. -/
def sentMessage_server (senderId : String) (content : Option String)
    (timestamp : String) (bookingId senderAvatarUrl : Option String)
    (freshId : String) : Message :=
  { messageId := freshId, senderId := some senderId, content := content,
    timestamp := some timestamp, read := false, status := "sent", system := false,
    bookingId := bookingId, senderAvatarUrl := senderAvatarUrl }

/-- The push half of the sendMessage updateOne call: append the message to
the messages array and refresh updatedAt, in the same atomic update. -/
def pushMessageUpdate (m : Message) (now : String) (c : Conversation) : Conversation :=
  { c with messages := c.messages ++ [m], updatedAt := now }

/-- Result of a sendMessage socket event: the store after the call, the
acknowledgment sent through the callback, the emitted receiveMessage
broadcasts as room and payload pairs, and the number of collection
operations performed. -/
structure SendResult where
  store : Store
  ack : Bool
  broadcasts : List (Option String × Message)
  dbOps : Nat
deriving DecidableEq

/-- The sendMessage socket handler of part_000, lines 114 to 138: build the
message, push it onto the conversation with one updateOne call, emit
receiveMessage to the room and acknowledge success; on a thrown storage
error acknowledge failure and emit nothing. The handler performs no field
validation, never creates the conversation, and ignores the update match
count, so a send to an absent conversation still acknowledges success. -/
def sendMessage_part000 (s : Store) (conversationId : Option String)
    (senderId : String) (content : Option String) (timestamp : String)
    (freshId now : String) (okUpdate : Bool) : SendResult :=
  let message := sentMessage_part000 senderId content timestamp freshId
  if okUpdate then
    let s1 := match conversationId with
      | none => s
      | some cid => updateOneDoc s (fun _ => true) cid (pushMessageUpdate message now)
    { store := s1, ack := true, broadcasts := [(conversationId, message)], dbOps := 1 }
  else
    { store := s, ack := false, broadcasts := [], dbOps := 1 }

/-- The sendMessage socket handler of server.js, lines 204 to 244: build
the message, look the conversation up, insert a fresh empty conversation
with participants senderId and the configured support user when absent,
then push the message with one updateOne call, emit receiveMessage to the
room and acknowledge success. A thrown storage error at any of the three
driver calls acknowledges failure and emits nothing. -/
def sendMessage_server (s : Store) (conversationId senderId : String)
    (content : Option String) (timestamp : String)
    (bookingId senderAvatarUrl envSupportUserId : Option String)
    (freshId now : String) (okFind okInsert okUpdate : Bool) : SendResult :=
  let message := sentMessage_server senderId content timestamp bookingId senderAvatarUrl freshId
  if !okFind then
    { store := s, ack := false, broadcasts := [], dbOps := 1 }
  else
    match findOne s conversationId with
    | some _ =>
        if !okUpdate then
          { store := s, ack := false, broadcasts := [], dbOps := 2 }
        else
          { store := updateOneDoc s (fun _ => true) conversationId (pushMessageUpdate message now),
            ack := true, broadcasts := [(some conversationId, message)], dbOps := 2 }
    | none =>
        if !okInsert then
          { store := s, ack := false, broadcasts := [], dbOps := 2 }
        else
          let s1 := insertDoc s
            { _id := conversationId,
              participants := [senderId, orDefault envSupportUserId "67d2eb99001ca2b957ce"],
              messages := [], bookingId := bookingId, status := none, openedBy := none,
              createdAt := now, updatedAt := now }
          if !okUpdate then
            { store := s1, ack := false, broadcasts := [], dbOps := 3 }
          else
            { store := updateOneDoc s1 (fun _ => true) conversationId (pushMessageUpdate message now),
              ack := true, broadcasts := [(some conversationId, message)], dbOps := 3 }

/-- True when the conversation holds a message with the given message id. -/
def hasMessage (c : Conversation) (mid : String) : Bool :=
  c.messages.any (fun m => m.messageId == mid)

/-- The positional array update of the markAsRead updateOne call: set the
read flag of the first message matching the id, leave everything else. -/
def setReadFirst (mid : String) : List Message → List Message
  | [] => []
  | m :: rest =>
      if m.messageId == mid then { m with read := true } :: rest
      else m :: setReadFirst mid rest

/-- Result of a markAsRead socket event: the store after the call, the
emitted messageRead broadcasts as room and message id pairs, and the number
of collection operations performed. The handler sends no acknowledgment. -/
structure ReadResult where
  store : Store
  broadcasts : List (Option String × String)
  dbOps : Nat
deriving DecidableEq

/-- The markAsRead socket handler, identical in part_000 lines 140 to 154
and server.js lines 246 to 257: one updateOne call filtered on the
conversation id and a message with the given id, setting the read flag of
the matching message and refreshing updatedAt; then a messageRead
broadcast to the room, emitted whether or not the update matched. On a
thrown storage error nothing is emitted. -/
def markAsRead (s : Store) (conversationId messageId : String) (now : String)
    (okUpdate : Bool) : ReadResult :=
  if okUpdate then
    { store := updateOneDoc s (fun c => hasMessage c messageId) conversationId
        (fun c => { c with messages := setReadFirst messageId c.messages, updatedAt := now }),
      broadcasts := [(some conversationId, messageId)], dbOps := 1 }
  else
    { store := s, broadcasts := [], dbOps := 1 }

/-- The system message appended by the updateStatus handler of server.js
when the new status is resolved, lines 163 to 174: sender is the openedBy
field of the request, the content is a fixed closing sentence, and the
avatar defaults to the empty string. The object carries no system flag. -/
def closingMessage (openedBy senderAvatarUrl : Option String) (freshId now : String) : Message :=
  { messageId := freshId, senderId := openedBy,
    content := some "This conversation has been closed.",
    timestamp := some now, read := false, status := "sent", system := false,
    bookingId := none, senderAvatarUrl := some (orDefault senderAvatarUrl "") }

/-- The single document mutation of the updateStatus handler: set status
and updatedAt, record openedBy when moving to in-progress with a truthy
openedBy, and append the closing system message when moving to resolved.
All of it is one updateOne call, hence one atomic step. -/
def applyStatusUpdate (status : String) (openedBy senderAvatarUrl : Option String)
    (freshId now : String) (c : Conversation) : Conversation :=
  let c1 := { c with status := some status, updatedAt := now }
  let c2 := if status == "in-progress" && truthy openedBy then { c1 with openedBy := openedBy } else c1
  if status == "resolved" then
    { c2 with messages := c2.messages ++ [closingMessage openedBy senderAvatarUrl freshId now] }
  else c2

/-- Response of the updateStatus endpoint. -/
inductive StatusResponse where
  | badRequest (error : String)
  | okMsg
  | serverError
deriving DecidableEq

/-- Result of the updateStatus endpoint. -/
structure StatusResult where
  store : Store
  response : StatusResponse
  dbOps : Nat
deriving DecidableEq

/-- The POST updateStatus handler of server.js, lines 137 to 187: reject a
falsy conversationId or status before any storage access, then perform the
combined status write and optional closing message append as one updateOne
call. A missing conversation makes the update match nothing; the handler
still answers with the success message. -/
def updateStatus (s : Store) (conversationId status openedBy senderAvatarUrl : Option String)
    (freshId now : String) (okUpdate : Bool) : StatusResult :=
  if !truthy conversationId then
    { store := s, response := .badRequest "Missing conversationId", dbOps := 0 }
  else if !truthy status then
    { store := s, response := .badRequest "Missing status", dbOps := 0 }
  else if !okUpdate then
    { store := s, response := .serverError, dbOps := 1 }
  else
    { store := updateOneDoc s (fun _ => true) (conversationId.getD "")
        (applyStatusUpdate (status.getD "") openedBy senderAvatarUrl freshId now),
      response := .okMsg, dbOps := 1 }

/-- The system message built by the POST /api/sendSystemMessage handler of
part_000, lines 186 to 195: sender is the literal system, the system flag
is set, read is false and status is sent. -/
def systemMessage_part000 (content : Option String) (freshId now : String) : Message :=
  { messageId := freshId, senderId := some "system", content := content,
    timestamp := some now, read := false, status := "sent", system := true,
    bookingId := none, senderAvatarUrl := none }

/-- Response of the sendSystemMessage endpoint of part_000. -/
inductive SysResponse where
  | badRequest (error : String)
  | okSuccess (message : Message)
  | notFound
  | serverError
deriving DecidableEq

/-- Result of the sendSystemMessage endpoint of part_000. -/
structure SysResult where
  store : Store
  response : SysResponse
  broadcasts : List (Option String × Message)
  dbOps : Nat
deriving DecidableEq

/-- The POST /api/sendSystemMessage handler of part_000, lines 178 to 212:
reject a falsy conversationId or content before any storage access, push
the system message with one updateOne call, and only when the update
modified a document emit receiveMessage to the room and answer success;
otherwise answer not found. -/
def sendSystemMessage_part000 (s : Store) (conversationId content : Option String)
    (freshId now : String) (okUpdate : Bool) : SysResult :=
  if !truthy conversationId || !truthy content then
    { store := s, response := .badRequest "Missing conversationId or content",
      broadcasts := [], dbOps := 0 }
  else if !okUpdate then
    { store := s, response := .serverError, broadcasts := [], dbOps := 1 }
  else
    let systemMessage := systemMessage_part000 content freshId now
    let cid := conversationId.getD ""
    match findOne s cid with
    | some _ =>
        { store := updateOneDoc s (fun _ => true) cid (pushMessageUpdate systemMessage now),
          response := .okSuccess systemMessage,
          broadcasts := [(some cid, systemMessage)], dbOps := 1 }
    | none =>
        { store := s, response := .notFound, broadcasts := [], dbOps := 1 }

/-- State of one concurrent caller of the creation endpoint in the race
model: program counter 0 before the findOne, 1 between the findOne and the
conditional insertOne, 2 when done; sawAbsent records the lookup outcome;
failed records that the insertOne threw a duplicate key error, which the
handler turns into a 500 response. -/
structure RaceThread where
  pc : Nat
  sawAbsent : Bool
  failed : Bool
deriving DecidableEq

/-- A fresh caller state. -/
def initThread : RaceThread := { pc := 0, sawAbsent := false, failed := false }

/-- Models collection.insertOne under the unique index on the primary key:
the insert is refused with a duplicate key error when a document with the
same key already exists. -/
def insertOneExc (s : Store) (c : Conversation) : Except Unit Store :=
  match findOne s c._id with
  | some _ => .error ()
  | none => .ok (insertDoc s c)

/-- One atomic step of a caller running the creation code of part_000
lines 58 to 67: first the findOne, recording whether the conversation was
absent, then, only when it was absent, the insertOne, which can fail on
the duplicate key. The await between the two driver calls is the
interleaving point. -/
def raceStep (id : String) (doc : Conversation) : Store × RaceThread → Store × RaceThread
  | (s, t) =>
    match t.pc with
    | 0 => (s, { t with pc := 1, sawAbsent := (findOne s id).isNone })
    | 1 =>
        if t.sawAbsent then
          match insertOneExc s doc with
          | .ok s1 => (s1, { t with pc := 2 })
          | .error _ => (s, { t with pc := 2, failed := true })
        else (s, { t with pc := 2 })
    | _ => (s, t)

/-- Run two concurrent callers of the creation code under a schedule: each
list element picks which caller performs its next atomic step. -/
def raceExec (id : String) (doc1 doc2 : Conversation) :
    List Bool → Store × RaceThread × RaceThread → Store × RaceThread × RaceThread
  | [], st => st
  | pick :: rest, (s, t1, t2) =>
      if pick then
        let r := raceStep id doc1 (s, t1)
        raceExec id doc1 doc2 rest (r.1, r.2, t2)
      else
        let r := raceStep id doc2 (s, t2)
        raceExec id doc1 doc2 rest (r.1, t1, r.2)

/-- Two concurrent callers racing on conversation creation from a common
initial store. -/
def runRace (id : String) (doc1 doc2 : Conversation) (sched : List Bool)
    (s0 : Store) : Store × RaceThread × RaceThread :=
  raceExec id doc1 doc2 sched (s0, initThread, initThread)

/-- Field preservation for one stored message across an operation: id,
sender, content and timestamp are unchanged and the read flag is never
reverted from true to false. -/
def msgEvolves (m m' : Message) : Prop :=
  m'.messageId = m.messageId ∧ m'.senderId = m.senderId ∧ m'.content = m.content ∧
    m'.timestamp = m.timestamp ∧ (m.read = true → m'.read = true)

/-- The old message list evolves, message by message, into a prefix of the
new one: every old message is still at its position with its immutable
fields intact and a monotone read flag, and new messages may only be
appended after them. -/
inductive msgsEvolve : List Message → List Message → Prop
  | nil (rest : List Message) : msgsEvolve [] rest
  | cons {m m' : Message} {ms ms' : List Message} :
      msgEvolves m m' → msgsEvolve ms ms' → msgsEvolve (m :: ms) (m' :: ms')

/-- The data model invariants of one conversation across an operation:
participants unchanged, message log never shrinking, and every already
stored message evolving in place. -/
def convEvolves (c c' : Conversation) : Prop :=
  c'.participants = c.participants ∧ c.messages.length ≤ c'.messages.length ∧
    msgsEvolve c.messages c'.messages

/-! Helper lemmas about the store primitives. -/

theorem findOne_insertDoc (s : Store) (c : Conversation) (k : String) :
    findOne (insertDoc s c) k = if c._id = k then some c else findOne s k := by
  simp [insertDoc, findOne]

theorem findOne_updateOneDoc (s : Store) (q : Conversation → Bool) (cid : String)
    (f : Conversation → Conversation) (k : String) :
    findOne (updateOneDoc s q cid f) k =
      if k = cid then Option.map (fun c => if q c then f c else c) (findOne s cid)
      else findOne s k := by
  induction s with
  | nil => simp [updateOneDoc, findOne]
  | cons e rest ih =>
      rcases e with ⟨a, c⟩
      by_cases hac : a = cid <;> by_cases hq : q c = true <;> by_cases hk : k = cid <;>
        simp_all [updateOneDoc, findOne] <;>
          simp [Ne.symm hk]

theorem updateOneDoc_of_none (s : Store) (q : Conversation → Bool) (cid : String)
    (f : Conversation → Conversation) (h : findOne s cid = none) :
    updateOneDoc s q cid f = s := by
  induction s with
  | nil => rfl
  | cons e rest ih =>
      by_cases hec : e.1 = cid
      · simp [findOne, hec] at h
      · simp only [findOne, hec] at h
        simp_all [updateOneDoc, hec]

theorem countId_eq_zero_of_findOne_none (s : Store) (k : String)
    (h : findOne s k = none) : countId s k = 0 := by
  induction s with
  | nil => rfl
  | cons e rest ih =>
      by_cases hek : e.1 = k
      · simp [findOne, hek] at h
      · simp only [findOne, hek] at h
        simp_all [countId, hek]

theorem countId_insertDoc (s : Store) (c : Conversation) (k : String) :
    countId (insertDoc s c) k = (if c._id = k then 1 else 0) + countId s k := by
  simp [insertDoc, countId]

/-! Helper lemmas about the creation race model. -/

theorem countId_raceStep (id : String) (doc : Conversation) (s : Store) (t : RaceThread)
    (h : ∀ k2, countId s k2 ≤ 1) (k : String) :
    countId (raceStep id doc (s, t)).1 k ≤ 1 := by
  unfold raceStep
  rcases t with ⟨pc, sawAbsent, failed⟩
  match pc with
  | 0 => exact h k
  | 1 =>
      simp only
      by_cases hs : sawAbsent <;> simp only [hs, if_pos, if_neg, Bool.false_eq_true]
      · unfold insertOneExc
        cases habs : findOne s doc._id with
        | some c => exact h k
        | none =>
            simp only [countId_insertDoc]
            by_cases hidk : doc._id = k
            · subst hidk
              have := countId_eq_zero_of_findOne_none s doc._id habs
              simp [this]
            · simp [hidk, h k]
      · exact h k
  | n + 2 => exact h k

theorem countId_raceExec (id : String) (doc1 doc2 : Conversation) (sched : List Bool)
    (s : Store) (t1 t2 : RaceThread) (h : ∀ k2, countId s k2 ≤ 1) (k : String) :
    countId (raceExec id doc1 doc2 sched (s, t1, t2)).1 k ≤ 1 := by
  induction sched generalizing s t1 t2 with
  | nil => exact h k
  | cons pick rest ih =>
      cases pick
      · exact ih _ _ _ (fun k2 => countId_raceStep id doc2 s t2 h k2)
      · exact ih _ _ _ (fun k2 => countId_raceStep id doc1 s t1 h k2)

/-! Helper lemmas about the evolution invariants. -/

theorem msgEvolves_refl (m : Message) : msgEvolves m m :=
  ⟨rfl, rfl, rfl, rfl, fun hr => hr⟩

theorem msgsEvolve_refl (ms : List Message) : msgsEvolve ms ms := by
  induction ms with
  | nil => exact .nil []
  | cons m rest ih => exact .cons (msgEvolves_refl m) ih

theorem msgsEvolve_append (ms rest : List Message) : msgsEvolve ms (ms ++ rest) := by
  induction ms with
  | nil => exact .nil rest
  | cons m tail ih => exact .cons (msgEvolves_refl m) ih

theorem setReadFirst_length (mid : String) (ms : List Message) :
    (setReadFirst mid ms).length = ms.length := by
  induction ms with
  | nil => rfl
  | cons m rest ih =>
      by_cases hm : m.messageId = mid <;> simp [setReadFirst, hm, ih]

theorem msgsEvolve_setReadFirst (mid : String) (ms : List Message) :
    msgsEvolve ms (setReadFirst mid ms) := by
  induction ms with
  | nil => exact .nil []
  | cons m rest ih =>
      by_cases hm : m.messageId = mid
      · have hb : (m.messageId == mid) = true := by simp [hm]
        simp only [setReadFirst, hb, if_true]
        exact .cons ⟨rfl, rfl, rfl, rfl, fun _ => rfl⟩ (msgsEvolve_refl rest)
      · have hb : (m.messageId == mid) = false := by simp [hm]
        simp only [setReadFirst, hb, Bool.false_eq_true, if_false]
        exact .cons (msgEvolves_refl m) ih

theorem setReadFirst_read (mid : String) (ms : List Message)
    (h : ms.any (fun m => m.messageId == mid) = true) :
    ((setReadFirst mid ms).find? (fun m => m.messageId == mid)).map Message.read = some true := by
  induction ms with
  | nil => simp at h
  | cons m rest ih =>
      by_cases hm : m.messageId = mid
      · simp [setReadFirst, hm, List.find?]
      · have hb : (m.messageId == mid) = false := by simp [hm]
        have h2 : rest.any (fun m => m.messageId == mid) = true := by
          simp only [List.any_cons, hb, Bool.false_or] at h
          exact h
        simp only [setReadFirst, hb, Bool.false_eq_true, if_false]
        rw [List.find?]
        simp only [hb]
        exact ih h2

theorem convEvolves_refl (c : Conversation) : convEvolves c c :=
  ⟨rfl, Nat.le_refl _, msgsEvolve_refl _⟩

theorem convEvolves_push (m : Message) (now : String) (c : Conversation) :
    convEvolves c (pushMessageUpdate m now c) :=
  ⟨rfl, by simp [pushMessageUpdate], msgsEvolve_append _ _⟩

theorem convEvolves_markRead (mid now : String) (c : Conversation) :
    convEvolves c { c with messages := setReadFirst mid c.messages, updatedAt := now } :=
  ⟨rfl, by simp [setReadFirst_length], msgsEvolve_setReadFirst mid c.messages⟩

theorem convEvolves_applyStatusUpdate (st : String) (ob av : Option String)
    (fid now : String) (c : Conversation) :
    convEvolves c (applyStatusUpdate st ob av fid now c) := by
  simp only [applyStatusUpdate]
  split <;> split <;>
    exact ⟨rfl, by simp, by first | exact msgsEvolve_append _ _ | exact msgsEvolve_refl _⟩

theorem convEvolves_of_updateOneDoc (s : Store) (q : Conversation → Bool) (cid : String)
    (f : Conversation → Conversation) (hf : ∀ d, q d = true → convEvolves d (f d))
    (id : String) (c c' : Conversation)
    (h : findOne s id = some c) (h' : findOne (updateOneDoc s q cid f) id = some c') :
    convEvolves c c' := by
  rw [findOne_updateOneDoc] at h'
  by_cases hk : id = cid
  · subst hk
    rw [if_pos rfl, h] at h'
    simp only [Option.map_some'] at h'
    by_cases hq : q c = true
    · rw [if_pos hq] at h'
      cases h'
      exact hf c hq
    · rw [if_neg hq] at h'
      cases h'
      exact convEvolves_refl c
  · rw [if_neg hk, h] at h'
    cases h'
    exact convEvolves_refl c

theorem convEvolves_of_insertNew (s : Store) (c0 : Conversation)
    (habs : findOne s c0._id = none) (id : String) (c c' : Conversation)
    (h : findOne s id = some c) (h' : findOne (insertDoc s c0) id = some c') :
    convEvolves c c' := by
  rw [findOne_insertDoc] at h'
  by_cases hk : c0._id = id
  · subst hk
    rw [habs] at h
    cases h
  · rw [if_neg hk, h] at h'
    cases h'
    exact convEvolves_refl c

/-! Claim theorems. -/

/-- C1, counterexample to the claim as stated: on an empty store, creating
a conversation for user u1 with booking reference BK/2024/01 stores a
conversation under the derived id, but its status field is absent rather
than open, because the creation code of the handler never writes a status
field. -/
theorem C1_counterexample :
    (findOne (createConversation_part000 [] (some "BK/2024/01") (some "u1") none none none
        "t0").store "BK_2024_01-u1-defaultSupport").isSome = true ∧
    (findOne (createConversation_part000 [] (some "BK/2024/01") (some "u1") none none none
        "t0").store "BK_2024_01-u1-defaultSupport").map Conversation.status ≠
      some (some "open") := by
  decide

/-- C1 (amended): conversation creation is idempotent. With a truthy
userId, the part_000 handler answers with the derived conversation id;
when a conversation with that id already exists the store is untouched;
when it is absent, exactly one fresh conversation is inserted under that
id, with an empty message log and with no status field (the code does not
write status = open), and no other document changes; a second sequential
call with the same inputs is a pure no-op on the store and returns the
same response. The createSupportConversation endpoint of server.js is
idempotent on the store in the same way. -/
theorem C1_createIfAbsent_idempotent (s : Store)
    (bookingId userId initiatedBy supportAgentId env : Option String)
    (now now2 : String) (hq : truthy userId = true) :
    ((createConversation_part000 s bookingId userId initiatedBy supportAgentId env now).response =
        CreateResponse.okId (derivedId bookingId userId initiatedBy supportAgentId env)) ∧
    ((∃ c, findOne s (derivedId bookingId userId initiatedBy supportAgentId env) = some c) →
        (createConversation_part000 s bookingId userId initiatedBy supportAgentId env now).store = s) ∧
    (findOne s (derivedId bookingId userId initiatedBy supportAgentId env) = none →
        findOne (createConversation_part000 s bookingId userId initiatedBy supportAgentId env
              now).store (derivedId bookingId userId initiatedBy supportAgentId env) =
          some { _id := derivedId bookingId userId initiatedBy supportAgentId env,
                 participants := [userId.getD "", supportIdOf initiatedBy supportAgentId env],
                 messages := [], bookingId := none, status := none, openedBy := none,
                 createdAt := now, updatedAt := now } ∧
        countId (createConversation_part000 s bookingId userId initiatedBy supportAgentId env
              now).store (derivedId bookingId userId initiatedBy supportAgentId env) = 1 ∧
        (∀ k, k ≠ derivedId bookingId userId initiatedBy supportAgentId env →
            findOne (createConversation_part000 s bookingId userId initiatedBy supportAgentId env
                now).store k = findOne s k)) ∧
    ((createConversation_part000
        (createConversation_part000 s bookingId userId initiatedBy supportAgentId env now).store
        bookingId userId initiatedBy supportAgentId env now2).store =
      (createConversation_part000 s bookingId userId initiatedBy supportAgentId env now).store ∧
     (createConversation_part000
        (createConversation_part000 s bookingId userId initiatedBy supportAgentId env now).store
        bookingId userId initiatedBy supportAgentId env now2).response =
      (createConversation_part000 s bookingId userId initiatedBy supportAgentId env now).response) ∧
    (∀ (s2 : Store) (b u e : Option String) (ta tb : String),
        (createSupportConversation (createSupportConversation s2 b u e ta).store b u e tb).store =
          (createSupportConversation s2 b u e ta).store) := by
  have hserver : ∀ (s2 : Store) (b u e : Option String) (ta tb : String),
      (createSupportConversation (createSupportConversation s2 b u e ta).store b u e tb).store =
        (createSupportConversation s2 b u e ta).store := by
    intro s2 b u e ta tb
    by_cases hv : (!truthy b || !truthy u) = true
    · simp [createSupportConversation, hv]
    · cases hfind : findOne s2 (derivedSupportId b u e) with
      | some c => simp [createSupportConversation, hv, hfind]
      | none => simp [createSupportConversation, hv, hfind, findOne_insertDoc]
  cases hfind : findOne s (derivedId bookingId userId initiatedBy supportAgentId env) with
  | some c =>
      refine ⟨?_, ?_, ?_, ?_, hserver⟩ <;>
        simp [createConversation_part000, hq, hfind]
  | none =>
      refine ⟨?_, ?_, ?_, ?_, hserver⟩
      · simp [createConversation_part000, hq, hfind]
      · rintro ⟨c, hc⟩
        cases hc
      · intro _
        refine ⟨?_, ?_, ?_⟩
        · simp [createConversation_part000, hq, hfind, findOne_insertDoc]
        · have hz := countId_eq_zero_of_findOne_none s _ hfind
          simp [createConversation_part000, hq, hfind, countId_insertDoc, hz]
        · intro k hk
          have hk2 : ¬ (derivedId bookingId userId initiatedBy supportAgentId env = k) :=
            fun hh => hk hh.symm
          simp [createConversation_part000, hq, hfind, findOne_insertDoc, hk2]
      · constructor <;>
          simp [createConversation_part000, hq, hfind, findOne_insertDoc]

/-- C1, witness: the amended theorem applied to the end to end scenario
inputs on the empty store. -/
theorem C1_witness :
    (createConversation_part000 [] (some "BK/2024/01") (some "u1") none none none "t0").response =
      CreateResponse.okId (derivedId (some "BK/2024/01") (some "u1") none none none) :=
  (C1_createIfAbsent_idempotent [] (some "BK/2024/01") (some "u1") none none none "t0" "t1"
    (by decide)).1

/-- C2: the conversation id derivation of the part_000 creation handler.
The support id is the explicit supportAgentId exactly when initiatedBy is
support and the field is a nonempty string, else the configured default;
with initiatedBy guest and a nonempty booking reference the id is the
booking reference with every forward slash replaced by an underscore,
then the user id, then the support id, joined by dashes; otherwise it is
the literal conversation, the user id and the support id joined by
dashes. The end to end example of the specification is included. -/
theorem C2_conversationId_derivation
    (bookingId supportAgentId env : Option String) (userId initiatedBy : String) :
    (∀ a : String, initiatedBy = "support" → supportAgentId = some a → a ≠ "" →
        resolveSupportId initiatedBy supportAgentId env = a) ∧
    (¬ (initiatedBy = "support" ∧ truthy supportAgentId = true) →
        resolveSupportId initiatedBy supportAgentId env = orDefault env "defaultSupport") ∧
    (∀ b : String, initiatedBy = "guest" → bookingId = some b → b ≠ "" →
        resolveConversationId bookingId userId initiatedBy
            (resolveSupportId initiatedBy supportAgentId env) =
          String.mk (b.data.map (fun ch => if ch = '/' then '_' else ch)) ++ "-" ++ userId ++
            "-" ++ resolveSupportId initiatedBy supportAgentId env) ∧
    (¬ (initiatedBy = "guest" ∧ truthy bookingId = true) →
        resolveConversationId bookingId userId initiatedBy
            (resolveSupportId initiatedBy supportAgentId env) =
          "conversation-" ++ userId ++ "-" ++ resolveSupportId initiatedBy supportAgentId env) ∧
    derivedId (some "BK/2024/01") (some "u1") (some "guest") none none =
      "BK_2024_01-u1-defaultSupport" := by
  refine ⟨?_, ?_, ?_, ?_, by decide⟩
  · intro a h1 h2 h3
    subst h1
    subst h2
    simp [resolveSupportId, truthy, h3]
  · intro hnot
    simp only [resolveSupportId]
    rw [if_neg]
    simp only [Bool.and_eq_true, beq_iff_eq, not_and]
    intro h1 h2
    exact hnot ⟨h1, h2⟩
  · intro b h1 h2 h3
    subst h1
    subst h2
    simp [resolveConversationId, truthy, normalizeBookingId, h3]
  · intro hnot
    simp only [resolveConversationId]
    rw [if_neg]
    simp only [Bool.and_eq_true, beq_iff_eq, not_and]
    intro h1 h2
    exact hnot ⟨h1, h2⟩

/-- C2, witness: the derivation theorem applied to a support initiated
conversation with an explicit agent id. -/
theorem C2_witness : resolveSupportId "support" (some "agent9") none = "agent9" :=
  (C2_conversationId_derivation none (some "agent9") none "u1" "support").1 "agent9" rfl rfl
    (by decide)

/-- C3, counterexample to the claim as stated: in the part_000 sendMessage
handler, a send into an empty store addressing a conversation that does
not exist acknowledges success and broadcasts receiveMessage, yet leaves
the store empty, so the message was never appended anywhere: the success
acknowledgment does not imply a persisted append. -/
theorem C3_counterexample :
    (sendMessage_part000 [] (some "c3") "u3" (some "hi") "t3" "m3" "t3b" true).ack = true ∧
    (sendMessage_part000 [] (some "c3") "u3" (some "hi") "t3" "m3" "t3b" true).broadcasts ≠ [] ∧
    (sendMessage_part000 [] (some "c3") "u3" (some "hi") "t3" "m3" "t3b" true).store = [] := by
  decide

/-- C3 (amended): when the storage update throws, both sendMessage
handlers acknowledge failure, broadcast nothing and leave the store
unchanged; a success acknowledgment guarantees a persisted append whenever
the conversation exists beforehand, which the server.js handler makes
unconditional by creating the conversation first; the part_000 handler,
however, can acknowledge success without persisting when the conversation
is absent. -/
theorem C3_ack_reflects_persistence
    (s : Store) (cid senderId : String) (content : Option String) (timestamp : String)
    (bookingId avatar env : Option String) (freshId now : String)
    (okFind okInsert okUpdate : Bool) :
    ((sendMessage_part000 s (some cid) senderId content timestamp freshId now false).ack = false ∧
     (sendMessage_part000 s (some cid) senderId content timestamp freshId now false).broadcasts = [] ∧
     (sendMessage_part000 s (some cid) senderId content timestamp freshId now false).store = s) ∧
    (∀ c, findOne s cid = some c →
        (sendMessage_part000 s (some cid) senderId content timestamp freshId now true).ack = true ∧
        findOne (sendMessage_part000 s (some cid) senderId content timestamp freshId now
            true).store cid =
          some (pushMessageUpdate (sentMessage_part000 senderId content timestamp freshId) now c)) ∧
    ((sendMessage_server s cid senderId content timestamp bookingId avatar env freshId now
        okFind okInsert okUpdate).ack = false →
      (sendMessage_server s cid senderId content timestamp bookingId avatar env freshId now
        okFind okInsert okUpdate).broadcasts = []) ∧
    (okUpdate = false →
      (sendMessage_server s cid senderId content timestamp bookingId avatar env freshId now
        okFind okInsert okUpdate).ack = false) ∧
    ((sendMessage_server s cid senderId content timestamp bookingId avatar env freshId now
        okFind okInsert okUpdate).ack = true →
      ∃ c', findOne (sendMessage_server s cid senderId content timestamp bookingId avatar env
            freshId now okFind okInsert okUpdate).store cid = some c' ∧
        c'.messages.getLast? =
          some (sentMessage_server senderId content timestamp bookingId avatar freshId) ∧
        (sendMessage_server s cid senderId content timestamp bookingId avatar env freshId now
            okFind okInsert okUpdate).broadcasts =
          [(some cid, sentMessage_server senderId content timestamp bookingId avatar freshId)]) := by
  refine ⟨by simp [sendMessage_part000], ?_, ?_, ?_, ?_⟩
  · intro c hc
    refine ⟨by simp [sendMessage_part000], ?_⟩
    simp [sendMessage_part000, findOne_updateOneDoc, hc]
  · cases okFind
    · simp [sendMessage_server]
    · cases hfind : findOne s cid with
      | some c => cases okUpdate <;> simp [sendMessage_server, hfind]
      | none => cases okInsert <;> cases okUpdate <;> simp [sendMessage_server, hfind]
  · intro hu
    subst hu
    cases okFind
    · simp [sendMessage_server]
    · cases hfind : findOne s cid with
      | some c => simp [sendMessage_server, hfind]
      | none => cases okInsert <;> simp [sendMessage_server, hfind]
  · intro hack
    cases okFind
    · simp [sendMessage_server] at hack
    · cases hfind : findOne s cid with
      | some c =>
          cases okUpdate
          · simp [sendMessage_server, hfind] at hack
          · refine ⟨pushMessageUpdate (sentMessage_server senderId content timestamp bookingId
                avatar freshId) now c, ?_, ?_, ?_⟩
            · simp [sendMessage_server, hfind, findOne_updateOneDoc]
            · simp [pushMessageUpdate, List.getLast?_concat]
            · simp [sendMessage_server, hfind]
      | none =>
          cases okInsert
          · simp [sendMessage_server, hfind] at hack
          · cases okUpdate
            · simp [sendMessage_server, hfind] at hack
            · refine ⟨?_, ?_, ?_, ?_⟩
              · exact pushMessageUpdate (sentMessage_server senderId content timestamp bookingId
                  avatar freshId) now
                  { _id := cid,
                    participants := [senderId, orDefault env "67d2eb99001ca2b957ce"],
                    messages := [], bookingId := bookingId, status := none, openedBy := none,
                    createdAt := now, updatedAt := now }
              · simp [sendMessage_server, hfind, findOne_updateOneDoc, findOne_insertDoc]
              · simp [pushMessageUpdate, List.getLast?_concat]
              · simp [sendMessage_server, hfind]

/-- C3, witness: the amended theorem applied to a store holding one empty
conversation, through the part_000 success clause. -/
theorem C3_witness :
    (sendMessage_part000 [("c1",
        { _id := "c1", participants := ["u1", "sup"], messages := [], bookingId := none,
          status := none, openedBy := none, createdAt := "t0", updatedAt := "t0" })]
      (some "c1") "u1" (some "hi") "t1" "m1" "t2" true).ack = true ∧
    findOne (sendMessage_part000 [("c1",
        { _id := "c1", participants := ["u1", "sup"], messages := [], bookingId := none,
          status := none, openedBy := none, createdAt := "t0", updatedAt := "t0" })]
      (some "c1") "u1" (some "hi") "t1" "m1" "t2" true).store "c1" =
      some (pushMessageUpdate (sentMessage_part000 "u1" (some "hi") "t1" "m1") "t2"
        { _id := "c1", participants := ["u1", "sup"], messages := [], bookingId := none,
          status := none, openedBy := none, createdAt := "t0", updatedAt := "t0" }) :=
  (C3_ack_reflects_persistence [("c1",
      { _id := "c1", participants := ["u1", "sup"], messages := [], bookingId := none,
        status := none, openedBy := none, createdAt := "t0", updatedAt := "t0" })]
    "c1" "u1" (some "hi") "t1" none none none "m1" "t2" true true true).2.1 _ (by decide)

/-- C4, counterexample to the claim as stated: the part_000 sendMessage
handler does not create a missing conversation: a send into an empty store
leaves the store empty, so no conversation row appears, while the sender
is still acknowledged with success. -/
theorem C4_counterexample :
    (sendMessage_part000 [] (some "c4") "u4" (some "hello") "t4" "m4" "t5" true).store = [] ∧
    (sendMessage_part000 [] (some "c4") "u4" (some "hello") "t4" "m4" "t5" true).ack = true := by
  decide

/-- C4 (amended): the server.js sendMessage handler first creates a
missing conversation with participants senderId and the configured default
support id, then appends the message, so the stored conversation exists
afterwards and holds exactly the sent message; the part_000 sendMessage
handler performs no such creation: a send whose conversation id names no
stored conversation leaves the store unchanged, silently dropping the
message while acknowledging success. -/
theorem C4_send_creates_when_missing
    (s : Store) (cid senderId : String) (content : Option String) (timestamp : String)
    (bookingId avatar env : Option String) (freshId now : String)
    (h : findOne s cid = none) :
    (∃ c', findOne (sendMessage_server s cid senderId content timestamp bookingId avatar env
          freshId now true true true).store cid = some c' ∧
        c'.participants = [senderId, orDefault env "67d2eb99001ca2b957ce"] ∧
        c'.bookingId = bookingId ∧
        c'.messages = [sentMessage_server senderId content timestamp bookingId avatar freshId]) ∧
    (sendMessage_server s cid senderId content timestamp bookingId avatar env freshId now
        true true true).ack = true ∧
    (sendMessage_part000 s (some cid) senderId content timestamp freshId now true).store = s ∧
    (sendMessage_part000 s (some cid) senderId content timestamp freshId now true).ack = true := by
  refine ⟨?_, ?_, ?_, ?_⟩
  · refine ⟨pushMessageUpdate (sentMessage_server senderId content timestamp bookingId avatar
        freshId) now
        { _id := cid, participants := [senderId, orDefault env "67d2eb99001ca2b957ce"],
          messages := [], bookingId := bookingId, status := none, openedBy := none,
          createdAt := now, updatedAt := now }, ?_, rfl, rfl, ?_⟩
    · simp [sendMessage_server, h, findOne_updateOneDoc, findOne_insertDoc]
    · simp [pushMessageUpdate]
  · simp [sendMessage_server, h]
  · simp [sendMessage_part000, updateOneDoc_of_none s _ cid _ h]
  · simp [sendMessage_part000]

/-- C4, witness: the amended theorem applied to the empty store. -/
theorem C4_witness :
    (sendMessage_server [] "c4" "u4" (some "hello") "t4" none none none "m4" "t5"
        true true true).ack = true :=
  (C4_send_creates_when_missing [] "c4" "u4" (some "hello") "t4" none none none "m4" "t5"
    rfl).2.1

/-- C5: markAsRead sets the read flag of the matching message to true when
it exists, leaving its identity, sender, content, timestamp, the other
messages and every other conversation field unchanged; when no such
message exists (including when the conversation itself is absent) it
completes as a no-op without error, the stored data unchanged; and in both
cases the messageRead broadcast carrying that message id is emitted to the
room unconditionally. -/
theorem C5_markAsRead_noop_safe (s : Store) (cid mid now : String) :
    ((markAsRead s cid mid now true).broadcasts = [(some cid, mid)]) ∧
    (findOne s cid = none → (markAsRead s cid mid now true).store = s) ∧
    (∀ c, findOne s cid = some c → hasMessage c mid = false →
        ∀ k, findOne (markAsRead s cid mid now true).store k = findOne s k) ∧
    (∀ c, findOne s cid = some c → hasMessage c mid = true →
        ∃ c', findOne (markAsRead s cid mid now true).store cid = some c' ∧
          ((c'.messages.find? (fun m => m.messageId == mid)).map Message.read = some true) ∧
          c'.messages.length = c.messages.length ∧
          msgsEvolve c.messages c'.messages ∧
          c'.participants = c.participants ∧ c'.status = c.status ∧
          c'.openedBy = c.openedBy ∧ c'.createdAt = c.createdAt ∧
          c'.bookingId = c.bookingId ∧
          (∀ k, k ≠ cid → findOne (markAsRead s cid mid now true).store k = findOne s k)) := by
  refine ⟨by simp [markAsRead], ?_, ?_, ?_⟩
  · intro hnone
    simp [markAsRead, updateOneDoc_of_none s _ cid _ hnone]
  · intro c hc hno k
    by_cases hk : k = cid
    · subst hk
      simp [markAsRead, findOne_updateOneDoc, hc, hno]
    · simp [markAsRead, findOne_updateOneDoc, hk]
  · intro c hc hyes
    refine ⟨{ c with messages := setReadFirst mid c.messages, updatedAt := now }, ?_, ?_, ?_,
      ?_, rfl, rfl, rfl, rfl, rfl, ?_⟩
    · simp [markAsRead, findOne_updateOneDoc, hc, hyes]
    · exact setReadFirst_read mid c.messages hyes
    · simp [setReadFirst_length]
    · exact msgsEvolve_setReadFirst mid c.messages
    · intro k hk
      simp [markAsRead, findOne_updateOneDoc, hk]

/-- C5, witness: the no-op clause applied to the empty store. -/
theorem C5_witness : (markAsRead [] "c5" "m1" "t9" true).store = [] :=
  (C5_markAsRead_noop_safe [] "c5" "m1" "t9").2.1 rfl

/-- Projection lemmas for the combined status update. -/

theorem applyStatusUpdate_status (st : String) (ob av : Option String) (fid now : String)
    (c : Conversation) : (applyStatusUpdate st ob av fid now c).status = some st := by
  simp only [applyStatusUpdate]
  split <;> split <;> rfl

theorem applyStatusUpdate_participants (st : String) (ob av : Option String) (fid now : String)
    (c : Conversation) : (applyStatusUpdate st ob av fid now c).participants = c.participants := by
  simp only [applyStatusUpdate]
  split <;> split <;> rfl

theorem applyStatusUpdate_openedBy_inprogress (ob av : Option String) (fid now : String)
    (c : Conversation) (h2 : truthy ob = true) :
    (applyStatusUpdate "in-progress" ob av fid now c).openedBy = ob := by
  simp [applyStatusUpdate, h2]

theorem applyStatusUpdate_messages_resolved (ob av : Option String) (fid now : String)
    (c : Conversation) :
    (applyStatusUpdate "resolved" ob av fid now c).messages =
      c.messages ++ [closingMessage ob av fid now] := by
  simp [applyStatusUpdate]

theorem applyStatusUpdate_messages_other (st : String) (ob av : Option String) (fid now : String)
    (c : Conversation) (h : st ≠ "resolved") :
    (applyStatusUpdate st ob av fid now c).messages = c.messages := by
  have hb : (st == "resolved") = false := by simp [h]
  simp only [applyStatusUpdate, hb, Bool.false_eq_true, if_false]
  split <;> rfl

/-- C6, counterexample to the claim as stated: resolving a conversation
appends a closing system message whose content is the sentence used by the
code, not the fixed content named by the claim: after the call the status
is resolved while no message with content conversation closed exists in
the log. -/
theorem C6_counterexample :
    ((findOne (updateStatus [("c6",
        { _id := "c6", participants := ["u6", "sup"], messages := [], bookingId := none,
          status := none, openedBy := none, createdAt := "t0", updatedAt := "t0" })]
      (some "c6") (some "resolved") (some "agent") none "m6" "t6" true).store "c6").map
        Conversation.status = some (some "resolved")) ∧
    ((findOne (updateStatus [("c6",
        { _id := "c6", participants := ["u6", "sup"], messages := [], bookingId := none,
          status := none, openedBy := none, createdAt := "t0", updatedAt := "t0" })]
      (some "c6") (some "resolved") (some "agent") none "m6" "t6" true).store "c6").map
        (fun c => c.messages.any (fun m => m.content == some "conversation closed")) =
      some false) := by
  decide

/-- C6 (amended): updateStatus on an existing conversation sets the status
field; when the status is in-progress and openedBy is truthy it records
openedBy; when the status is resolved it appends, in the same single
atomic update, a closing system message attributed to openedBy whose
content is the sentence This conversation has been closed. (not the
shorter phrase named in the specification); the two effects always happen
together: a faulted update leaves the store fully unchanged, and a
successful one applies both, so the stored conversation never shows one
without the other as a result of this call. -/
theorem C6_updateStatus_atomic (s : Store) (cid st : String) (ob av : Option String)
    (freshId now : String) (c : Conversation)
    (hcid : cid ≠ "") (hst : st ≠ "") (h : findOne s cid = some c) :
    (∃ c', findOne (updateStatus s (some cid) (some st) ob av freshId now true).store cid =
        some c' ∧
      c'.status = some st ∧
      c'.participants = c.participants ∧
      (st = "in-progress" → truthy ob = true → c'.openedBy = ob) ∧
      (st = "resolved" → c'.messages = c.messages ++ [closingMessage ob av freshId now]) ∧
      (st ≠ "resolved" → c'.messages = c.messages)) ∧
    (closingMessage ob av freshId now).content = some "This conversation has been closed." ∧
    (closingMessage ob av freshId now).senderId = ob ∧
    (updateStatus s (some cid) (some st) ob av freshId now false).store = s ∧
    (∀ k, k ≠ cid → findOne (updateStatus s (some cid) (some st) ob av freshId now true).store k
        = findOne s k) := by
  have hc1 : truthy (some cid) = true := by simp [truthy, hcid]
  have hs1 : truthy (some st) = true := by simp [truthy, hst]
  refine ⟨⟨applyStatusUpdate st ob av freshId now c, ?_, applyStatusUpdate_status st ob av
      freshId now c, applyStatusUpdate_participants st ob av freshId now c, ?_, ?_, ?_⟩,
    rfl, rfl, ?_, ?_⟩
  · simp [updateStatus, hc1, hs1, findOne_updateOneDoc, h]
  · intro h1 h2
    subst h1
    exact applyStatusUpdate_openedBy_inprogress ob av freshId now c h2
  · intro h1
    subst h1
    exact applyStatusUpdate_messages_resolved ob av freshId now c
  · intro h1
    exact applyStatusUpdate_messages_other st ob av freshId now c h1
  · simp [updateStatus, hc1, hs1]
  · intro k hk
    simp [updateStatus, hc1, hs1, findOne_updateOneDoc, hk]

/-- C6, witness: the amended theorem applied to a store with one open
conversation being resolved by an agent. -/
theorem C6_witness :
    (closingMessage (some "agent") none "m6" "t6").content =
      some "This conversation has been closed." :=
  (C6_updateStatus_atomic [("c6",
      { _id := "c6", participants := ["u6", "sup"], messages := [], bookingId := none,
        status := none, openedBy := none, createdAt := "t0", updatedAt := "t0" })]
    "c6" "resolved" (some "agent") none "m6" "t6"
    { _id := "c6", participants := ["u6", "sup"], messages := [], bookingId := none,
      status := none, openedBy := none, createdAt := "t0", updatedAt := "t0" }
    (by decide) (by decide) (by decide)).2.1

/-- C7, counterexample to the claim as stated: with the read then insert
pattern of the creation handler, the interleaving where both callers
perform their lookup before either inserts makes the second insert fail on
the duplicate key, so the losing caller ends in the failed state, answered
with an error instead of observing the created conversation. -/
theorem C7_counterexample :
    (runRace "c7"
      { _id := "c7", participants := ["u7", "defaultSupport"], messages := [],
        bookingId := none, status := none, openedBy := none, createdAt := "t0",
        updatedAt := "t0" }
      { _id := "c7", participants := ["u7", "defaultSupport"], messages := [],
        bookingId := none, status := none, openedBy := none, createdAt := "t0",
        updatedAt := "t0" }
      [true, false, true, false] []).2.2.failed = true ∧
    (runRace "c7"
      { _id := "c7", participants := ["u7", "defaultSupport"], messages := [],
        bookingId := none, status := none, openedBy := none, createdAt := "t0",
        updatedAt := "t0" }
      { _id := "c7", participants := ["u7", "defaultSupport"], messages := [],
        bookingId := none, status := none, openedBy := none, createdAt := "t0",
        updatedAt := "t0" }
      [true, false, true, false] []).2.1.failed = false ∧
    countId (runRace "c7"
      { _id := "c7", participants := ["u7", "defaultSupport"], messages := [],
        bookingId := none, status := none, openedBy := none, createdAt := "t0",
        updatedAt := "t0" }
      { _id := "c7", participants := ["u7", "defaultSupport"], messages := [],
        bookingId := none, status := none, openedBy := none, createdAt := "t0",
        updatedAt := "t0" }
      [true, false, true, false] []).1 "c7" = 1 := by
  decide

/-- C7 (amended): under concurrent first callers racing on the same id, at
most one conversation document is ever durably stored per id, because the
unique primary key makes the second insert fail; but the handlers use a
read then insert check rather than an atomic conditional insert, so the
losing caller of the race can receive a duplicate key failure instead of
observing the created conversation, as the exhibited interleaving shows. -/
theorem C7_at_most_one_create (id : String) (doc1 doc2 : Conversation) (sched : List Bool)
    (s0 : Store) (h : ∀ k, countId s0 k ≤ 1) :
    (∀ k, countId (runRace id doc1 doc2 sched s0).1 k ≤ 1) ∧
    (runRace "c7b"
      { _id := "c7b", participants := ["u7", "defaultSupport"], messages := [],
        bookingId := none, status := none, openedBy := none, createdAt := "t0",
        updatedAt := "t0" }
      { _id := "c7b", participants := ["u7", "defaultSupport"], messages := [],
        bookingId := none, status := none, openedBy := none, createdAt := "t0",
        updatedAt := "t0" }
      [false, true, false, true] []).2.1.failed = true := by
  refine ⟨fun k => countId_raceExec id doc1 doc2 sched s0 initThread initThread h k, ?_⟩
  decide

/-- C7, witness: the amended theorem applied to an empty schedule over the
empty store. -/
theorem C7_witness :
    countId (runRace "w"
      { _id := "w", participants := ["uw", "defaultSupport"], messages := [],
        bookingId := none, status := none, openedBy := none, createdAt := "t0",
        updatedAt := "t0" }
      { _id := "w", participants := ["uw", "defaultSupport"], messages := [],
        bookingId := none, status := none, openedBy := none, createdAt := "t0",
        updatedAt := "t0" }
      [] []).1 "w" ≤ 1 :=
  (C7_at_most_one_create "w"
    { _id := "w", participants := ["uw", "defaultSupport"], messages := [],
      bookingId := none, status := none, openedBy := none, createdAt := "t0",
      updatedAt := "t0" }
    { _id := "w", participants := ["uw", "defaultSupport"], messages := [],
      bookingId := none, status := none, openedBy := none, createdAt := "t0",
      updatedAt := "t0" }
    [] [] (fun k => by simp [countId])).1 "w"

/-- The same store read twice at the same key yields the same document. -/
theorem convEvolves_of_eq (s : Store) (id : String) (c c' : Conversation)
    (h : findOne s id = some c) (h' : findOne s id = some c') : convEvolves c c' := by
  rw [h] at h'
  cases h'
  exact convEvolves_refl c

/-- Evolution across an insert of a fresh document followed by an atomic
update. -/
theorem convEvolves_of_insert_update (s : Store) (c0 : Conversation)
    (q : Conversation → Bool) (cid : String) (f : Conversation → Conversation)
    (habs : findOne s c0._id = none) (hf : ∀ d, q d = true → convEvolves d (f d))
    (id : String) (c c' : Conversation) (h : findOne s id = some c)
    (h' : findOne (updateOneDoc (insertDoc s c0) q cid f) id = some c') :
    convEvolves c c' := by
  have hne : ¬ (c0._id = id) := by
    intro hh
    rw [hh, h] at habs
    cases habs
  have h1 : findOne (insertDoc s c0) id = some c := by
    rw [findOne_insertDoc, if_neg hne]
    exact h
  exact convEvolves_of_updateOneDoc (insertDoc s c0) q cid f hf id c c' h1 h'

/-- Evolution across an insert of a fresh document alone. -/
theorem convEvolves_of_insert_only (s : Store) (c0 : Conversation)
    (habs : findOne s c0._id = none) (id : String) (c c' : Conversation)
    (h : findOne s id = some c) (h' : findOne (insertDoc s c0) id = some c') :
    convEvolves c c' :=
  convEvolves_of_insertNew s c0 habs id c c' h h'

/-- C8: every operation of the core preserves the data model invariants.
For each of the seven handlers, any conversation stored both before and
after the call keeps its participants, its message log never shrinks, and
every already stored message keeps its id, sender, content and timestamp,
with a read flag that is never reverted from true to false. -/
theorem C8_invariants_preserved :
    (∀ (s : Store) (b u i sa e : Option String) (now id : String) (c c' : Conversation),
        findOne s id = some c →
        findOne (createConversation_part000 s b u i sa e now).store id = some c' →
        convEvolves c c') ∧
    (∀ (s : Store) (b u e : Option String) (now id : String) (c c' : Conversation),
        findOne s id = some c →
        findOne (createSupportConversation s b u e now).store id = some c' →
        convEvolves c c') ∧
    (∀ (s : Store) (cid : Option String) (sid : String) (content : Option String)
        (ts fid now : String) (ok : Bool) (id : String) (c c' : Conversation),
        findOne s id = some c →
        findOne (sendMessage_part000 s cid sid content ts fid now ok).store id = some c' →
        convEvolves c c') ∧
    (∀ (s : Store) (cid sid : String) (content : Option String) (ts : String)
        (bk av e : Option String) (fid now : String) (okF okI okU : Bool) (id : String)
        (c c' : Conversation),
        findOne s id = some c →
        findOne (sendMessage_server s cid sid content ts bk av e fid now okF okI
            okU).store id = some c' →
        convEvolves c c') ∧
    (∀ (s : Store) (cid mid now : String) (ok : Bool) (id : String) (c c' : Conversation),
        findOne s id = some c →
        findOne (markAsRead s cid mid now ok).store id = some c' →
        convEvolves c c') ∧
    (∀ (s : Store) (cid st ob av : Option String) (fid now : String) (ok : Bool)
        (id : String) (c c' : Conversation),
        findOne s id = some c →
        findOne (updateStatus s cid st ob av fid now ok).store id = some c' →
        convEvolves c c') ∧
    (∀ (s : Store) (cid content : Option String) (fid now : String) (ok : Bool)
        (id : String) (c c' : Conversation),
        findOne s id = some c →
        findOne (sendSystemMessage_part000 s cid content fid now ok).store id = some c' →
        convEvolves c c') := by
  refine ⟨?_, ?_, ?_, ?_, ?_, ?_, ?_⟩
  · intro s b u i sa e now id c c' h h'
    cases hu : truthy u with
    | false =>
        simp [createConversation_part000, hu] at h'
        exact convEvolves_of_eq s id c c' h h'
    | true =>
        cases hfind : findOne s (derivedId b u i sa e) with
        | some d =>
            simp [createConversation_part000, hu, hfind] at h'
            exact convEvolves_of_eq s id c c' h h'
        | none =>
            simp [createConversation_part000, hu, hfind] at h'
            exact convEvolves_of_insert_only s _ hfind id c c' h h'
  · intro s b u e now id c c' h h'
    cases hb : truthy b with
    | false =>
        simp [createSupportConversation, hb] at h'
        exact convEvolves_of_eq s id c c' h h'
    | true =>
        cases hu : truthy u with
        | false =>
            simp [createSupportConversation, hb, hu] at h'
            exact convEvolves_of_eq s id c c' h h'
        | true =>
            cases hfind : findOne s (derivedSupportId b u e) with
            | some d =>
                simp [createSupportConversation, hb, hu, hfind] at h'
                exact convEvolves_of_eq s id c c' h h'
            | none =>
                simp [createSupportConversation, hb, hu, hfind] at h'
                exact convEvolves_of_insert_only s _ hfind id c c' h h'
  · intro s cid sid content ts fid now ok id c c' h h'
    cases ok with
    | false =>
        simp [sendMessage_part000] at h'
        exact convEvolves_of_eq s id c c' h h'
    | true =>
        cases cid with
        | none =>
            simp [sendMessage_part000] at h'
            exact convEvolves_of_eq s id c c' h h'
        | some cidv =>
            simp [sendMessage_part000] at h'
            exact convEvolves_of_updateOneDoc s _ cidv _
              (fun d _ => convEvolves_push _ now d) id c c' h h'
  · intro s cid sid content ts bk av e fid now okF okI okU id c c' h h'
    cases okF with
    | false =>
        simp [sendMessage_server] at h'
        exact convEvolves_of_eq s id c c' h h'
    | true =>
        cases hfind : findOne s cid with
        | some d =>
            cases okU with
            | false =>
                simp [sendMessage_server, hfind] at h'
                exact convEvolves_of_eq s id c c' h h'
            | true =>
                simp [sendMessage_server, hfind] at h'
                exact convEvolves_of_updateOneDoc s _ cid _
                  (fun d2 _ => convEvolves_push _ now d2) id c c' h h'
        | none =>
            cases okI with
            | false =>
                simp [sendMessage_server, hfind] at h'
                exact convEvolves_of_eq s id c c' h h'
            | true =>
                cases okU with
                | false =>
                    simp [sendMessage_server, hfind] at h'
                    exact convEvolves_of_insert_only s _ hfind id c c' h h'
                | true =>
                    simp [sendMessage_server, hfind] at h'
                    exact convEvolves_of_insert_update s _ _ cid _ hfind
                      (fun d2 _ => convEvolves_push _ now d2) id c c' h h'
  · intro s cid mid now ok id c c' h h'
    cases ok with
    | false =>
        simp [markAsRead] at h'
        exact convEvolves_of_eq s id c c' h h'
    | true =>
        simp [markAsRead] at h'
        exact convEvolves_of_updateOneDoc s _ cid _
          (fun d _ => convEvolves_markRead mid now d) id c c' h h'
  · intro s cid st ob av fid now ok id c c' h h'
    cases hc : truthy cid with
    | false =>
        simp [updateStatus, hc] at h'
        exact convEvolves_of_eq s id c c' h h'
    | true =>
        cases hs2 : truthy st with
        | false =>
            simp [updateStatus, hc, hs2] at h'
            exact convEvolves_of_eq s id c c' h h'
        | true =>
            cases ok with
            | false =>
                simp [updateStatus, hc, hs2] at h'
                exact convEvolves_of_eq s id c c' h h'
            | true =>
                simp [updateStatus, hc, hs2] at h'
                exact convEvolves_of_updateOneDoc s _ (cid.getD "") _
                  (fun d _ => convEvolves_applyStatusUpdate (st.getD "") ob av fid now d)
                  id c c' h h'
  · intro s cid content fid now ok id c c' h h'
    cases hc : truthy cid with
    | false =>
        simp [sendSystemMessage_part000, hc] at h'
        exact convEvolves_of_eq s id c c' h h'
    | true =>
        cases hct : truthy content with
        | false =>
            simp [sendSystemMessage_part000, hc, hct] at h'
            exact convEvolves_of_eq s id c c' h h'
        | true =>
            cases ok with
            | false =>
                simp [sendSystemMessage_part000, hc, hct] at h'
                exact convEvolves_of_eq s id c c' h h'
            | true =>
                cases hfind : findOne s (cid.getD "") with
                | some d =>
                    simp [sendSystemMessage_part000, hc, hct, hfind] at h'
                    exact convEvolves_of_updateOneDoc s _ (cid.getD "") _
                      (fun d2 _ => convEvolves_push _ now d2) id c c' h h'
                | none =>
                    simp [sendSystemMessage_part000, hc, hct, hfind] at h'
                    exact convEvolves_of_eq s id c c' h h'

/-- C8, witness: the markAsRead clause applied to a store with one empty
conversation and a message id that matches nothing, so the conversation
evolves into itself. -/
theorem C8_witness :
    convEvolves
      ⟨"c8", ["u8", "sup"], [], none, none, none, "t0", "t0"⟩
      ⟨"c8", ["u8", "sup"], [], none, none, none, "t0", "t0"⟩ :=
  C8_invariants_preserved.2.2.2.2.1
    [("c8", ⟨"c8", ["u8", "sup"], [], none, none, none, "t0", "t0"⟩)] "c8" "mx" "t1" true "c8"
    ⟨"c8", ["u8", "sup"], [], none, none, none, "t0", "t0"⟩
    ⟨"c8", ["u8", "sup"], [], none, none, none, "t0", "t0"⟩
    (by decide) (by decide)

/-- C9, counterexample to the claim as stated: the part_000 sendMessage
socket handler performs no validation at all: with both the conversation
id and the content missing it still performs a storage operation and
acknowledges success instead of surfacing a validation error. -/
theorem C9_counterexample :
    (sendMessage_part000 [] none "u9" none "t9" "m9" "t9b" true).dbOps = 1 ∧
    (sendMessage_part000 [] none "u9" none "t9" "m9" "t9b" true).ack = true := by
  decide

/-- C9 (amended): the HTTP endpoints surface a validation error
immediately, with the store untouched and zero storage operations, when a
required field is missing: userId for conversation creation, bookingId and
userId for createSupportConversation, conversationId and status for
updateStatus, conversationId and content for sendSystemMessage. The
socket handlers, in contrast, validate nothing: sendMessage and markAsRead
always attempt a storage operation whatever the fields, and the server.js
sendMessage performs at least one storage operation on every call. -/
theorem C9_validation_http_only :
    (∀ (s : Store) (b u i sa e : Option String) (now : String), truthy u = false →
        (createConversation_part000 s b u i sa e now).store = s ∧
        (createConversation_part000 s b u i sa e now).dbOps = 0 ∧
        (createConversation_part000 s b u i sa e now).response =
          CreateResponse.badRequest "userId is required") ∧
    (∀ (s : Store) (b u e : Option String) (now : String),
        truthy b = false ∨ truthy u = false →
        (createSupportConversation s b u e now).store = s ∧
        (createSupportConversation s b u e now).dbOps = 0 ∧
        (createSupportConversation s b u e now).response =
          CreateResponse.badRequest "bookingId and userId are required") ∧
    (∀ (s : Store) (cid st ob av : Option String) (fid now : String) (ok : Bool),
        truthy cid = false ∨ truthy st = false →
        (updateStatus s cid st ob av fid now ok).store = s ∧
        (updateStatus s cid st ob av fid now ok).dbOps = 0 ∧
        (∃ msg, (updateStatus s cid st ob av fid now ok).response =
          StatusResponse.badRequest msg)) ∧
    (∀ (s : Store) (cid content : Option String) (fid now : String) (ok : Bool),
        truthy cid = false ∨ truthy content = false →
        (sendSystemMessage_part000 s cid content fid now ok).store = s ∧
        (sendSystemMessage_part000 s cid content fid now ok).dbOps = 0 ∧
        (sendSystemMessage_part000 s cid content fid now ok).response =
          SysResponse.badRequest "Missing conversationId or content") ∧
    (∀ (s : Store) (cid : Option String) (sid : String) (content : Option String)
        (ts fid now : String) (ok : Bool),
        (sendMessage_part000 s cid sid content ts fid now ok).dbOps = 1) ∧
    (∀ (s : Store) (cid mid now : String) (ok : Bool),
        (markAsRead s cid mid now ok).dbOps = 1) ∧
    (∀ (s : Store) (cid sid : String) (content : Option String) (ts : String)
        (bk av e : Option String) (fid now : String) (okF okI okU : Bool),
        1 ≤ (sendMessage_server s cid sid content ts bk av e fid now okF okI okU).dbOps) := by
  refine ⟨?_, ?_, ?_, ?_, ?_, ?_, ?_⟩
  · intro s b u i sa e now hu
    simp [createConversation_part000, hu]
  · intro s b u e now hv
    rcases hv with hv | hv <;> simp [createSupportConversation, hv]
  · intro s cid st ob av fid now ok hv
    rcases hv with hv | hv
    · simp [updateStatus, hv]
    · cases hc : truthy cid <;> simp [updateStatus, hc, hv]
  · intro s cid content fid now ok hv
    rcases hv with hv | hv <;> simp [sendSystemMessage_part000, hv]
  · intro s cid sid content ts fid now ok
    cases ok <;> cases cid <;> simp [sendMessage_part000]
  · intro s cid mid now ok
    cases ok <;> simp [markAsRead]
  · intro s cid sid content ts bk av e fid now okF okI okU
    cases okF
    · simp [sendMessage_server]
    · cases hfind : findOne s cid with
      | some d => cases okU <;> simp [sendMessage_server, hfind]
      | none => cases okI <;> cases okU <;> simp [sendMessage_server, hfind]

/-- C9, witness: the creation endpoint rejects a missing userId without
touching storage. -/
theorem C9_witness : (createConversation_part000 [] none none none none none "t0").dbOps = 0 :=
  (C9_validation_http_only.1 [] none none none none none "t0" rfl).2.1

/-- C10: a successful message append on an existing conversation changes
the stored conversation only by appending exactly one message at the end
of the log and refreshing updatedAt; participants, createdAt, bookingId,
status, openedBy and every other stored conversation are unchanged. This
holds for the part_000 sendMessage handler, the server.js sendMessage
handler and the part_000 sendSystemMessage endpoint. -/
theorem C10_append_frame (s : Store) (cid : String) (c : Conversation)
    (h : findOne s cid = some c) :
    (∀ (sid : String) (content : Option String) (ts fid now : String),
        ∃ c', findOne (sendMessage_part000 s (some cid) sid content ts fid now
            true).store cid = some c' ∧
          (∃ m, c'.messages = c.messages ++ [m]) ∧
          c'.updatedAt = now ∧ c'.participants = c.participants ∧
          c'.createdAt = c.createdAt ∧ c'.bookingId = c.bookingId ∧
          c'.status = c.status ∧ c'.openedBy = c.openedBy ∧
          (∀ k, k ≠ cid →
            findOne (sendMessage_part000 s (some cid) sid content ts fid now true).store k =
              findOne s k)) ∧
    (∀ (sid : String) (content : Option String) (ts : String) (bk av e : Option String)
        (fid now : String),
        ∃ c', findOne (sendMessage_server s cid sid content ts bk av e fid now
            true true true).store cid = some c' ∧
          (∃ m, c'.messages = c.messages ++ [m]) ∧
          c'.updatedAt = now ∧ c'.participants = c.participants ∧
          c'.createdAt = c.createdAt ∧ c'.bookingId = c.bookingId ∧
          c'.status = c.status ∧ c'.openedBy = c.openedBy ∧
          (∀ k, k ≠ cid →
            findOne (sendMessage_server s cid sid content ts bk av e fid now
                true true true).store k = findOne s k)) ∧
    (∀ (content fid now : String), cid ≠ "" → content ≠ "" →
        ∃ c', findOne (sendSystemMessage_part000 s (some cid) (some content) fid now
            true).store cid = some c' ∧
          (∃ m, c'.messages = c.messages ++ [m]) ∧
          c'.updatedAt = now ∧ c'.participants = c.participants ∧
          c'.createdAt = c.createdAt ∧ c'.bookingId = c.bookingId ∧
          c'.status = c.status ∧ c'.openedBy = c.openedBy ∧
          (∀ k, k ≠ cid →
            findOne (sendSystemMessage_part000 s (some cid) (some content) fid now
                true).store k = findOne s k)) := by
  refine ⟨?_, ?_, ?_⟩
  · intro sid content ts fid now
    refine ⟨pushMessageUpdate (sentMessage_part000 sid content ts fid) now c, ?_,
      ⟨sentMessage_part000 sid content ts fid, rfl⟩, rfl, rfl, rfl, rfl, rfl, rfl, ?_⟩
    · simp [sendMessage_part000, findOne_updateOneDoc, h]
    · intro k hk
      simp [sendMessage_part000, findOne_updateOneDoc, hk]
  · intro sid content ts bk av e fid now
    refine ⟨pushMessageUpdate (sentMessage_server sid content ts bk av fid) now c, ?_,
      ⟨sentMessage_server sid content ts bk av fid, rfl⟩, rfl, rfl, rfl, rfl, rfl, rfl, ?_⟩
    · simp [sendMessage_server, findOne_updateOneDoc, h]
    · intro k hk
      simp [sendMessage_server, h, findOne_updateOneDoc, hk]
  · intro content fid now hcid hcontent
    have hc1 : truthy (some cid) = true := by simp [truthy, hcid]
    have hc2 : truthy (some content) = true := by simp [truthy, hcontent]
    refine ⟨pushMessageUpdate (systemMessage_part000 (some content) fid now) now c, ?_,
      ⟨systemMessage_part000 (some content) fid now, rfl⟩, rfl, rfl, rfl, rfl, rfl, rfl, ?_⟩
    · simp [sendSystemMessage_part000, hc1, hc2, h, findOne_updateOneDoc]
    · intro k hk
      simp [sendSystemMessage_part000, hc1, hc2, h, findOne_updateOneDoc, hk]

/-- C10, witness: the part_000 append clause applied to a store with one
empty conversation, projected to the refreshed updatedAt field. -/
theorem C10_witness :
    (findOne (sendMessage_part000
        [("c10", ⟨"c10", ["u10"], [], none, none, none, "t0", "t0"⟩)]
      (some "c10") "u10" (some "hi") "t1" "m1" "t2" true).store "c10").map
        Conversation.updatedAt = some "t2" := by
  obtain ⟨c', h1, _, h3, _⟩ :=
    (C10_append_frame [("c10", ⟨"c10", ["u10"], [], none, none, none, "t0", "t0"⟩)] "c10"
      ⟨"c10", ["u10"], [], none, none, none, "t0", "t0"⟩ (by decide)).1 "u10" (some "hi")
      "t1" "m1" "t2"
  rw [h1, Option.map_some', h3]

end ChatBackend
